import Mathlib

/-
Shallow embedding of the purchase validation & entitlement reconciliation core
of the toss-or-taste repository:

  * supabase/functions/apple-iap-process-credits/index.ts
  * supabase/functions/google-iap-process-credits/index.ts
  * the apple subscription processing function (serve handler with the
    zombie-record re-validation branch and the onConflict transaction_id upsert)
  * supabase/functions/apple-server-notifications/index.ts

Timestamps are modelled as natural numbers (milliseconds); `new Date().toISOString()`
becomes an explicit `now : Nat` parameter threaded into each handler, and
`new Date(parseInt(ms)).toISOString()` becomes the number `ms` itself (the ISO
rendering is injective, so equality of stored timestamps is equality of the
millisecond values).  Database tables become lists of records; supabase
`.select().eq(k).single()` becomes `List.find?`, `.update().eq(id)` becomes a
map over the rows (a no-op when no row matches, which matches supabase update
semantics: no error is raised for zero matched rows), inserts cons a row whose
`created_at`/`updated_at` default to `now` (list order is immaterial: every
lookup is keyed).  Thrown JS errors become an error value returned with the
unchanged state (the catch block turns them into an HTTP 500 payload without
further writes).
-/

namespace TossOrTaste

/-- JS `String.prototype.includes` (substring test), used by the endpoints as
`productId.includes('single_credit')` etc. -/
def strContains (s pat : String) : Bool :=
  (List.range (s.length + 1)).any (fun i => ((s.drop i).take pat.length) == pat)

/-- validation_status column: 'pending' | 'valid' | 'invalid' | 'refunded'. -/
inductive VStatus
  | pending
  | valid
  | invalid
  | refunded
deriving DecidableEq

/-- One row of apple_iap_transactions (the fields the handlers read or write). -/
structure TxRecord where
  user_id : String
  transaction_id : String
  original_transaction_id : Option String := none
  product_id : String
  product_type : String
  purchase_date : Nat
  quantity : Nat := 1
  subscription_expires_at : Option Nat := none
  subscription_auto_renew_status : Option Bool := none
  receipt_data : Option String := none
  environment : Option String := none
  validation_status : VStatus
  processed : Bool
  processed_at : Option Nat := none
  created_at : Nat := 0
  updated_at : Nat := 0
deriving DecidableEq

/-- One row of google_play_transactions. -/
structure GTxRecord where
  user_id : String
  order_id : String
  purchase_token : String
  product_id : String
  product_type : String
  purchase_date : Nat
  quantity : Nat := 1
  acknowledgement_state : Nat := 0
  validation_status : VStatus
  processed : Bool
  processed_at : Option Nat := none
  created_at : Nat := 0
deriving DecidableEq

/-- Entitlement-relevant part of a profiles row. -/
structure Profile where
  room_credits : Nat
  subscription_type : Option String := none
  subscription_status : Option String := none
  subscription_expires_at : Option Nat := none
  updated_at : Nat := 0
deriving DecidableEq

/-- Backing store touched by the handlers. -/
structure DBState where
  appleTx : List TxRecord
  googleTx : List GTxRecord
  profiles : List (String × Profile)
deriving DecidableEq

/-- `.from("apple_iap_transactions").select(...).eq("transaction_id", tid).single()`. -/
def findAppleTx (s : DBState) (tid : String) : Option TxRecord :=
  s.appleTx.find? (fun r => r.transaction_id = tid)

/-- `.from("google_play_transactions").select(...).eq("order_id", oid).single()`. -/
def findGoogleTx (s : DBState) (oid : String) : Option GTxRecord :=
  s.googleTx.find? (fun r => r.order_id = oid)

/-- `.from("profiles").select(...).eq("id", uid).single()`. -/
def getProfile (s : DBState) (uid : String) : Option Profile :=
  (s.profiles.find? (fun q => q.1 = uid)).map Prod.snd

/-- `.from("profiles").update(...).eq("id", uid)`: rewrites the matching row,
no-op (and no error) when the row is absent. -/
def updateProfile (s : DBState) (uid : String) (f : Profile → Profile) : DBState :=
  { s with profiles := s.profiles.map (fun q => if q.1 = uid then (q.1, f q.2) else q) }

/-- `.from("apple_iap_transactions").insert(row)` (created_at/updated_at filled
by the table defaults). -/
def insertAppleTx (s : DBState) (r : TxRecord) : DBState :=
  { s with appleTx := r :: s.appleTx }

/-- `.from("google_play_transactions").insert(row)`. -/
def insertGoogleTx (s : DBState) (r : GTxRecord) : DBState :=
  { s with googleTx := r :: s.googleTx }

/-- A purchase entry inside Apple's verification response
(receipt.in_app element or latest_receipt_info element). -/
structure PurchaseEntry where
  transaction_id : String
  original_transaction_id : Option String := none
  product_id : String
  purchase_date_ms : Option Nat := none
  expires_date_ms : Option Nat := none
  quantity : Option Nat := none
deriving DecidableEq

/-- Apple verifyReceipt response as read by the handlers.  `in_app` stands for
`receipt.in_app || []` (a status-0 response always carries a receipt), and
`pending_renewal_auto_renew` for `pending_renewal_info?.[0]?.auto_renew_status`. -/
structure AppleReceiptResponse where
  status : Nat
  in_app : List PurchaseEntry := []
  latest_receipt_info : Option (List PurchaseEntry) := none
  pending_renewal_auto_renew : Option String := none
  environment : Option String := none
deriving DecidableEq

/-- validateWithApple: submit to the production endpoint first; on status 21007
(sandbox receipt) retry once against the sandbox endpoint and return that
result.  The two parameters are the responses the production and sandbox
endpoints would give for the submitted receipt. -/
def validateWithApple (prodResp sandboxResp : AppleReceiptResponse) : AppleReceiptResponse :=
  if prodResp.status = 21007 then sandboxResp else prodResp

/-- The thrown error messages of the handlers, as structured values. -/
inductive PErr
  | receiptDataRequired
  | purchaseTokenRequired
  | productIdRequired
  | transactionIdRequired
  | orderIdRequired
  | previouslyRejected
  | appleValidationFailed (status : Nat)
  | purchaseNotValid (purchaseState : Nat)
  | txNotFoundInReceipt
  | productIdMismatch (expected got : String)
  | unknownCreditProduct (pid : String)
  | profileFetchFailed
  | profileUpdateFailed
  | noExpirationDate
  | invalidTimeValue
deriving DecidableEq

/-- Response of a credits processing endpoint: `ok` is the
`{success, creditsAdded, newTotal}` payload, `alreadyProcessed` the
`{success, message, newTotal}` replay payload, `err` the HTTP 500 error payload. -/
inductive CreditsResponse
  | ok (creditsAdded newTotal : Nat)
  | alreadyProcessed (newTotal : Nat)
  | err (e : PErr)
deriving DecidableEq

/-- Request body of the apple endpoints: { receiptData, productId, transactionId }. -/
structure CreditsRequest where
  receiptData : String
  productId : String
  transactionId : String
deriving DecidableEq

/-- Credit amount derived from the product id (identical block in the apple and
google credits handlers): includes('single_credit') → 1,
else includes('credit_pack') → 5, else unknown product (throws). -/
def creditAmountOf (productId : String) : Option Nat :=
  if strContains productId "single_credit" then some 1
  else if strContains productId "credit_pack" then some 5
  else none

/-- JS `parseInt(purchase.quantity) || 1`: missing or zero falls back to 1. -/
def jsQuantityOr1 (q : Option Nat) : Nat :=
  match q with
  | some 0 => 1
  | some n => n
  | none => 1

/-- Purchase-entry lookup of the apple credits handler: search receipt.in_app
by transaction_id, then latest_receipt_info by transaction_id. -/
def appleCreditsMatch (vr : AppleReceiptResponse) (transactionId : String) :
    Option PurchaseEntry :=
  match vr.in_app.find? (fun p => p.transaction_id = transactionId) with
  | some p => some p
  | none =>
    match vr.latest_receipt_info with
    | some lst => lst.find? (fun p => p.transaction_id = transactionId)
    | none => none

/-- serve handler of apple-iap-process-credits (after authentication: `userId`
is the authenticated user's id; `prodResp`/`sandboxResp` are the platform's
verification responses; `now` is the server clock in ms). -/
def appleProcessCredits (userId : String) (rq : CreditsRequest)
    (prodResp sandboxResp : AppleReceiptResponse) (now : Nat) (s : DBState) :
    CreditsResponse × DBState :=
  if rq.receiptData = "" then (.err .receiptDataRequired, s)
  else if rq.productId = "" then (.err .productIdRequired, s)
  else if rq.transactionId = "" then (.err .transactionIdRequired, s)
  else
    match findAppleTx s rq.transactionId with
    | some existing =>
      if existing.validation_status = .valid then
        (.alreadyProcessed (((getProfile s userId).map Profile.room_credits).getD 0), s)
      else
        (.err .previouslyRejected, s)
    | none =>
      let vr := validateWithApple prodResp sandboxResp
      if vr.status ≠ 0 then
        (.err (.appleValidationFailed vr.status),
         insertAppleTx s
            { user_id := userId
              transaction_id := rq.transactionId
              product_id := rq.productId
              product_type := "consumable"
              purchase_date := now
              receipt_data := some rq.receiptData
              environment := vr.environment
              validation_status := .invalid
              processed := false
              created_at := now
              updated_at := now })
      else
        match appleCreditsMatch vr rq.transactionId with
        | none => (.err .txNotFoundInReceipt, s)
        | some purchase =>
          if purchase.product_id ≠ rq.productId then
            (.err (.productIdMismatch rq.productId purchase.product_id), s)
          else
            match creditAmountOf rq.productId with
            | none => (.err (.unknownCreditProduct rq.productId), s)
            | some creditAmount =>
              match getProfile s userId with
              | none => (.err .profileFetchFailed, s)
              | some profile =>
                let newCredits := profile.room_credits + creditAmount
                let s1 := updateProfile s userId
                  (fun p => { p with room_credits := newCredits, updated_at := now })
                (.ok creditAmount newCredits,
                 insertAppleTx s1
                    { user_id := userId
                      transaction_id := rq.transactionId
                      product_id := rq.productId
                      product_type := "consumable"
                      purchase_date := purchase.purchase_date_ms.getD now
                      quantity := jsQuantityOr1 purchase.quantity
                      receipt_data := some rq.receiptData
                      environment := some (vr.environment.getD "Production")
                      validation_status := .valid
                      processed := true
                      processed_at := some now
                      created_at := now
                      updated_at := now })

/-- Google Play purchases.products response as read by the handler. -/
structure GoogleProductResponse where
  purchaseTimeMillis : Nat
  purchaseState : Nat
  orderId : String := ""
  acknowledgementState : Option Nat := none
  quantity : Option Nat := none
deriving DecidableEq

/-- Request body of google-iap-process-credits: { purchaseToken, productId, orderId }. -/
structure GoogleCreditsRequest where
  purchaseToken : String
  productId : String
  orderId : String
deriving DecidableEq

/-- JS `validationResult.quantity || 1` on the google path. -/
def jsGQuantityOr1 (q : Option Nat) : Nat :=
  match q with
  | some 0 => 1
  | some n => n
  | none => 1

/-- serve handler of google-iap-process-credits (after authentication;
`gresp` is the Google Play API response for the submitted purchase token). -/
def googleProcessCredits (userId : String) (rq : GoogleCreditsRequest)
    (gresp : GoogleProductResponse) (now : Nat) (s : DBState) :
    CreditsResponse × DBState :=
  if rq.purchaseToken = "" then (.err .purchaseTokenRequired, s)
  else if rq.productId = "" then (.err .productIdRequired, s)
  else if rq.orderId = "" then (.err .orderIdRequired, s)
  else
    match findGoogleTx s rq.orderId with
    | some existing =>
      if existing.validation_status = .valid then
        (.alreadyProcessed (((getProfile s userId).map Profile.room_credits).getD 0), s)
      else
        (.err .previouslyRejected, s)
    | none =>
      if gresp.purchaseState ≠ 0 then
        (.err (.purchaseNotValid gresp.purchaseState),
         insertGoogleTx s
            { user_id := userId
              order_id := rq.orderId
              purchase_token := rq.purchaseToken
              product_id := rq.productId
              product_type := "consumable"
              purchase_date := gresp.purchaseTimeMillis
              validation_status := .invalid
              processed := false
              created_at := now })
      else
        match creditAmountOf rq.productId with
        | none => (.err (.unknownCreditProduct rq.productId), s)
        | some creditAmount =>
          match getProfile s userId with
          | none => (.err .profileFetchFailed, s)
          | some profile =>
            let newCredits := profile.room_credits + creditAmount
            let s1 := updateProfile s userId
              (fun p => { p with room_credits := newCredits, updated_at := now })
            (.ok creditAmount newCredits,
             insertGoogleTx s1
                { user_id := userId
                  order_id := rq.orderId
                  purchase_token := rq.purchaseToken
                  product_id := rq.productId
                  product_type := "consumable"
                  purchase_date := gresp.purchaseTimeMillis
                  quantity := jsGQuantityOr1 gresp.quantity
                  acknowledgement_state := gresp.acknowledgementState.getD 0
                  validation_status := .valid
                  processed := true
                  processed_at := some now
                  created_at := now })

/-- Response of the apple subscription endpoint: `ok` is the
`{success, subscriptionType, subscriptionStatus: active, expiresAt}` payload,
`alreadyActive` the replay payload carrying the selected profile columns,
`err` the HTTP 500 error payload. -/
inductive SubResponse
  | ok (subscriptionType : String) (expiresAt : Nat)
  | alreadyActive (subscription_type subscription_status : Option String)
      (subscription_expires_at : Option Nat)
  | err (e : PErr)
deriving DecidableEq

/-- Purchase-entry matching of the apple subscription handler: search
latest_receipt_info by transaction_id, original_transaction_id, or a
first-purchase entry (transaction_id equal to its own original_transaction_id);
then receipt.in_app by transaction_id or original_transaction_id; then fall
back to the last entry of latest_receipt_info. -/
def appleSubMatch (vr : AppleReceiptResponse) (transactionId : String) :
    Option PurchaseEntry :=
  let latest := vr.latest_receipt_info.getD []
  match latest.find? (fun p =>
      p.transaction_id = transactionId ∨
      p.original_transaction_id = some transactionId ∨
      p.original_transaction_id = some p.transaction_id) with
  | some p => some p
  | none =>
    match vr.in_app.find? (fun p =>
        p.transaction_id = transactionId ∨
        p.original_transaction_id = some transactionId) with
    | some p => some p
    | none => latest.getLast?

/-- `.from("apple_iap_transactions").upsert(row, { onConflict: transaction_id })`:
replace the row with the same transaction_id if one exists (its created_at
column is kept, not being part of the upsert payload), otherwise insert. -/
def upsertAppleTx (l : List TxRecord) (r : TxRecord) : List TxRecord :=
  if l.any (fun x => x.transaction_id = r.transaction_id) then
    l.map (fun x => if x.transaction_id = r.transaction_id then
      { r with created_at := x.created_at } else x)
  else r :: l

/-- The upsert applied to the database state. -/
def applyUpsertAppleTx (s : DBState) (r : TxRecord) : DBState :=
  { s with appleTx := upsertAppleTx s.appleTx r }

/-- Validation tail of the apple subscription handler (reached both on a fresh
transaction id and on a zombie valid record whose profile shows no active
subscription): verify with Apple, match the purchase entry, cross-check the
product id, read expires_date_ms, update the profile, upsert the ledger row. -/
def appleSubValidatePath (userId : String) (rq : CreditsRequest)
    (prodResp sandboxResp : AppleReceiptResponse) (now : Nat) (s : DBState) :
    SubResponse × DBState :=
  let vr := validateWithApple prodResp sandboxResp
  if vr.status ≠ 0 then
    (.err (.appleValidationFailed vr.status),
     insertAppleTx s
        { user_id := userId
          transaction_id := rq.transactionId
          product_id := rq.productId
          product_type := "subscription"
          purchase_date := now
          receipt_data := some rq.receiptData
          environment := vr.environment
          validation_status := .invalid
          processed := false
          created_at := now
          updated_at := now })
  else
    match appleSubMatch vr rq.transactionId with
    | none => (.err .txNotFoundInReceipt, s)
    | some purchase =>
      if purchase.product_id ≠ rq.productId then
        (.err (.productIdMismatch rq.productId purchase.product_id), s)
      else
        let subscriptionType :=
          if strContains rq.productId "monthly" then "monthly" else "annual"
        match purchase.expires_date_ms with
        | none => (.err .noExpirationDate, s)
        | some expiresMs =>
          let originalTransactionId :=
            purchase.original_transaction_id.getD rq.transactionId
          let autoRenewStatus := vr.pending_renewal_auto_renew == some "1"
          let s1 := updateProfile s userId (fun p =>
            { p with
              subscription_type := some subscriptionType
              subscription_status := some "active"
              subscription_expires_at := some expiresMs
              updated_at := now })
          let row : TxRecord :=
            { user_id := userId
              transaction_id := rq.transactionId
              original_transaction_id := some originalTransactionId
              product_id := rq.productId
              product_type := "subscription"
              purchase_date := purchase.purchase_date_ms.getD now
              subscription_expires_at := some expiresMs
              subscription_auto_renew_status := some autoRenewStatus
              receipt_data := some rq.receiptData
              environment := some (vr.environment.getD "Production")
              validation_status := .valid
              processed := true
              processed_at := some now
              created_at := now
              updated_at := now }
          (.ok subscriptionType expiresMs, applyUpsertAppleTx s1 row)

/-- The zombie check of the subscription handler:
`profile?.subscription_status === 'active' && profile?.subscription_expires_at`
(false when the profile row is absent). -/
def profileActive (profile? : Option Profile) : Bool :=
  match profile? with
  | some prof =>
    prof.subscription_status == some "active" && prof.subscription_expires_at.isSome
  | none => false

/-- serve handler of the apple subscription processing function (the variant
with the zombie-record branch).  On an existing valid record it short-circuits
only when the caller's profile shows subscription_status 'active' with a
non-null subscription_expires_at; otherwise it falls through to re-validation. -/
def appleProcessSubscription (userId : String) (rq : CreditsRequest)
    (prodResp sandboxResp : AppleReceiptResponse) (now : Nat) (s : DBState) :
    SubResponse × DBState :=
  if rq.receiptData = "" then (.err .receiptDataRequired, s)
  else if rq.productId = "" then (.err .productIdRequired, s)
  else if rq.transactionId = "" then (.err .transactionIdRequired, s)
  else
    match findAppleTx s rq.transactionId with
    | some existing =>
      if existing.validation_status = .valid then
        let profile? := getProfile s userId
        if profileActive profile? then
          (.alreadyActive ((profile?.map Profile.subscription_type).getD none)
            ((profile?.map Profile.subscription_status).getD none)
            ((profile?.map Profile.subscription_expires_at).getD none), s)
        else
          appleSubValidatePath userId rq prodResp sandboxResp now s
      else
        (.err .previouslyRejected, s)
    | none => appleSubValidatePath userId rq prodResp sandboxResp now s

/-- Notification data as read by apple-server-notifications
(`payload.data || payload.unified_receipt?.latest_receipt_info?.[0]`).
`purchase_date_ms` is carried by Apple's payload but never read by the handler. -/
structure NotifData where
  original_transaction_id : String
  product_id : String
  expires_date_ms : Option Nat := none
  transaction_id : String
  purchase_date_ms : Option Nat := none
deriving DecidableEq

/-- Webhook payload of apple-server-notifications. -/
structure NotifPayload where
  notification_type : String
  data : Option NotifData := none
  unified_latest_receipt_info_head : Option NotifData := none
  unified_pending_auto_renew_status : Option String := none
  environment : Option String := none
deriving DecidableEq

/-- Webhook response: `{ received: true }` with HTTP 200, or the HTTP 500
error payload produced by the catch block. -/
inductive WebhookResponse
  | received
  | errorResp (e : PErr)
deriving DecidableEq

/-- `.eq("original_transaction_id", oid).order("created_at", desc).limit(1).single()`:
the most recently created row whose original_transaction_id matches. -/
def findLatestByOriginal (l : List TxRecord) (oid : String) : Option TxRecord :=
  (l.filter (fun r => r.original_transaction_id = some oid)).foldl
    (fun acc r =>
      match acc with
      | none => some r
      | some b => if b.created_at ≤ r.created_at then some r else some b)
    none

/-- Profile update `{subscription_status := status, updated_at := now}`. -/
def setProfileStatus (s : DBState) (uid status : String) (now : Nat) : DBState :=
  updateProfile s uid (fun p =>
    { p with subscription_status := some status, updated_at := now })

/-- Profile update setting subscription_status and forcing
subscription_expires_at to the given timestamp. -/
def setProfileStatusExpire (s : DBState) (uid status : String) (expiresMs now : Nat) :
    DBState :=
  updateProfile s uid (fun p =>
    { p with
      subscription_status := some status
      subscription_expires_at := some expiresMs
      updated_at := now })

/-- `payload.data || payload.unified_receipt?.latest_receipt_info?.[0]`. -/
def notifData (p : NotifPayload) : Option NotifData :=
  match p.data with
  | some d => some d
  | none => p.unified_latest_receipt_info_head

/-- `.from("apple_iap_transactions").update({validation_status: refunded}).eq("transaction_id", tid)`. -/
def markAppleTxRefunded (s : DBState) (tid : String) (now : Nat) : DBState :=
  { s with appleTx := s.appleTx.map (fun r =>
      if r.transaction_id = tid then
        { r with validation_status := .refunded, updated_at := now }
      else r) }

/-- serve handler of apple-server-notifications.  A DID_RENEW/DID_RECOVER
notification without expires_date_ms throws (new Date(parseInt(undefined))
has no valid toISOString), surfacing as the HTTP 500 catch branch. -/
def appleServerNotifications (p : NotifPayload) (now : Nat) (s : DBState) :
    WebhookResponse × DBState :=
  match notifData p with
  | none => (.received, s)
  | some d =>
    match findLatestByOriginal s.appleTx d.original_transaction_id with
    | none => (.received, s)
    | some txn =>
      let userId := txn.user_id
      if p.notification_type = "DID_RENEW" ∨ p.notification_type = "RENEWAL" then
        match d.expires_date_ms with
        | none => (.errorResp .invalidTimeValue, s)
        | some expiresMs =>
          let subscriptionType :=
            if strContains d.product_id "monthly" then "monthly" else "annual"
          let s1 := updateProfile s userId (fun q =>
            { q with
              subscription_type := some subscriptionType
              subscription_status := some "active"
              subscription_expires_at := some expiresMs
              updated_at := now })
          (.received,
           insertAppleTx s1
              { user_id := userId
                transaction_id := d.transaction_id
                original_transaction_id := some d.original_transaction_id
                product_id := d.product_id
                product_type := "subscription"
                purchase_date := now
                subscription_expires_at := some expiresMs
                subscription_auto_renew_status := some true
                environment := some (p.environment.getD "Production")
                validation_status := .valid
                processed := true
                processed_at := some now
                created_at := now
                updated_at := now })
      else if p.notification_type = "DID_CHANGE_RENEWAL_STATUS" ∨
              p.notification_type = "CANCEL" then
        let autoRenewStatus := p.unified_pending_auto_renew_status == some "1"
        if autoRenewStatus then (.received, s)
        else (.received, setProfileStatus s userId "cancelled" now)
      else if p.notification_type = "DID_FAIL_TO_RENEW" then
        (.received, setProfileStatus s userId "payment_failed" now)
      else if p.notification_type = "REFUND" then
        let s1 := markAppleTxRefunded s d.transaction_id now
        (.received, setProfileStatusExpire s1 userId "refunded" now now)
      else if p.notification_type = "REVOKE" then
        (.received, setProfileStatusExpire s userId "revoked" now now)
      else if p.notification_type = "DID_RECOVER" then
        match d.expires_date_ms with
        | none => (.errorResp .invalidTimeValue, s)
        | some expiresMs =>
          (.received, setProfileStatusExpire s userId "active" expiresMs now)
      else
        (.received, s)

/-! Concrete fixtures used by the witness and counterexample theorems. -/

/-- Profile of user u1 with 3 room credits and no subscription. -/
def exProfile : Profile := { room_credits := 3 }

/-- Fresh store: empty ledgers, u1 owns 3 credits. -/
def exS0 : DBState := { appleTx := [], googleTx := [], profiles := [("u1", exProfile)] }

/-- Apple credits request for a single_credit purchase with transaction id T1. -/
def exRq : CreditsRequest :=
  { receiptData := "r", productId := "single_credit", transactionId := "T1" }

/-- Matching receipt entry for exRq. -/
def exEntry : PurchaseEntry :=
  { transaction_id := "T1", product_id := "single_credit",
    purchase_date_ms := some 100, quantity := some 1 }

/-- Successful production verification response containing exEntry. -/
def exPr : AppleReceiptResponse := { status := 0, in_app := [exEntry] }

/-- Sandbox response (unused on the production-success path). -/
def exSb : AppleReceiptResponse := { status := 1 }

/-- Production response with a non-21007 failure status. -/
def exPrFail : AppleReceiptResponse := { status := 21002 }

/-- Production response reporting a sandbox receipt. -/
def exPr21007 : AppleReceiptResponse := { status := 21007 }

/-- Production response whose matched entry carries a different product id
than the client claims. -/
def exPrMismatch : AppleReceiptResponse :=
  { status := 0,
    in_app := [{ transaction_id := "T1", product_id := "other_product" }] }

/-- Google credits request for a single_credit purchase with order id O1. -/
def exGRq : GoogleCreditsRequest :=
  { purchaseToken := "pt", productId := "single_credit", orderId := "O1" }

/-- Successful Google Play response for exGRq. -/
def exG : GoogleProductResponse :=
  { purchaseTimeMillis := 100, purchaseState := 0, orderId := "O1" }

/-- A valid, processed apple ledger row for T1 owned by a user other than u1. -/
def exForeignRec : TxRecord :=
  { user_id := "other"
    transaction_id := "T1"
    product_id := "single_credit"
    product_type := "consumable"
    purchase_date := 100
    validation_status := .valid
    processed := true }

/-- Store whose only apple row is exForeignRec and with no profile row at all. -/
def exSForeign : DBState := { appleTx := [exForeignRec], googleTx := [], profiles := [] }

/-- A valid google ledger row for O1 owned by a user other than u1. -/
def exForeignGRec : GTxRecord :=
  { user_id := "other"
    order_id := "O1"
    purchase_token := "pt"
    product_id := "single_credit"
    product_type := "consumable"
    purchase_date := 100
    validation_status := .valid
    processed := true }

/-- Store whose only google row is exForeignGRec and with no profile row. -/
def exSGForeign : DBState := { appleTx := [], googleTx := [exForeignGRec], profiles := [] }

/-- An apple ledger row for T1 previously marked invalid. -/
def exInvalidRec : TxRecord :=
  { user_id := "u1"
    transaction_id := "T1"
    product_id := "single_credit"
    product_type := "consumable"
    purchase_date := 100
    validation_status := .invalid
    processed := false }

/-- Store holding the previously rejected row for T1. -/
def exSInvalid : DBState :=
  { appleTx := [exInvalidRec], googleTx := [], profiles := [("u1", exProfile)] }

/-- Apple subscription request for a premium_monthly purchase with
transaction id S1. -/
def exSubRq : CreditsRequest :=
  { receiptData := "r", productId := "premium_monthly", transactionId := "S1" }

/-- Subscription receipt entry for exSubRq with platform expiry 2222. -/
def exSubEntry : PurchaseEntry :=
  { transaction_id := "S1", original_transaction_id := some "S1",
    product_id := "premium_monthly", purchase_date_ms := some 100,
    expires_date_ms := some 2222 }

/-- Successful verification response for the subscription purchase. -/
def exPrSub : AppleReceiptResponse :=
  { status := 0, latest_receipt_info := some [exSubEntry] }

/-- A valid subscription ledger row for S1 with a stale stored expiry 111. -/
def exZombieRec : TxRecord :=
  { user_id := "u1"
    transaction_id := "S1"
    original_transaction_id := some "S1"
    product_id := "premium_monthly"
    product_type := "subscription"
    purchase_date := 100
    subscription_expires_at := some 111
    validation_status := .valid
    processed := true
    created_at := 1 }

/-- Zombie store: the S1 row is valid but u1's profile shows no active
subscription. -/
def exSZombie : DBState :=
  { appleTx := [exZombieRec], googleTx := [], profiles := [("u1", exProfile)] }

/-- u1's profile with an active monthly subscription expiring at 333. -/
def exActiveProfile : Profile :=
  { room_credits := 3, subscription_type := some "monthly",
    subscription_status := some "active", subscription_expires_at := some 333 }

/-- Store where the S1 row is valid and u1's subscription is active. -/
def exSActive : DBState :=
  { appleTx := [exZombieRec], googleTx := [], profiles := [("u1", exActiveProfile)] }

/-- An original transaction row for O1 owned by u1 (webhook attribution). -/
def exOrigRec : TxRecord :=
  { user_id := "u1"
    transaction_id := "S1"
    original_transaction_id := some "O1"
    product_id := "premium_monthly"
    product_type := "subscription"
    purchase_date := 100
    subscription_expires_at := some 111
    validation_status := .valid
    processed := true
    created_at := 1 }

/-- Store for the webhook scenarios: one attributable row, u1 has a profile. -/
def exSOrig : DBState :=
  { appleTx := [exOrigRec], googleTx := [], profiles := [("u1", exProfile)] }

/-- DID_RENEW payload for O1 whose platform-reported purchase timestamp is
1000 and new expiry 2000, minting renewal transaction id T9. -/
def exRenewPayload : NotifPayload :=
  { notification_type := "DID_RENEW"
    data := some
      { original_transaction_id := "O1"
        product_id := "premium_monthly"
        expires_date_ms := some 2000
        transaction_id := "T9"
        purchase_date_ms := some 1000 } }

/-- Payload with an unhandled notification type. -/
def exUnknownPayload : NotifPayload :=
  { notification_type := "SOME_FUTURE_TYPE"
    data := some
      { original_transaction_id := "O1"
        product_id := "premium_monthly"
        expires_date_ms := some 2000
        transaction_id := "T9" } }

/-! Interface lemmas for the state helpers: how each keyed lookup interacts
with each write operation. -/

theorem findAppleTx_insertAppleTx (s : DBState) (r : TxRecord) (tid : String) :
    findAppleTx (insertAppleTx s r) tid =
      if r.transaction_id = tid then some r else findAppleTx s tid := by
  by_cases h : r.transaction_id = tid <;>
    simp [findAppleTx, insertAppleTx, List.find?, h]

theorem findAppleTx_insertGoogleTx (s : DBState) (g : GTxRecord) (tid : String) :
    findAppleTx (insertGoogleTx s g) tid = findAppleTx s tid := rfl

theorem findAppleTx_updateProfile (s : DBState) (u : String) (f : Profile → Profile)
    (tid : String) : findAppleTx (updateProfile s u f) tid = findAppleTx s tid := rfl

theorem findGoogleTx_insertGoogleTx (s : DBState) (g : GTxRecord) (oid : String) :
    findGoogleTx (insertGoogleTx s g) oid =
      if g.order_id = oid then some g else findGoogleTx s oid := by
  by_cases h : g.order_id = oid <;>
    simp [findGoogleTx, insertGoogleTx, List.find?, h]

theorem findGoogleTx_insertAppleTx (s : DBState) (r : TxRecord) (oid : String) :
    findGoogleTx (insertAppleTx s r) oid = findGoogleTx s oid := rfl

theorem findGoogleTx_updateProfile (s : DBState) (u : String) (f : Profile → Profile)
    (oid : String) : findGoogleTx (updateProfile s u f) oid = findGoogleTx s oid := rfl

theorem getProfile_insertAppleTx (s : DBState) (r : TxRecord) (u : String) :
    getProfile (insertAppleTx s r) u = getProfile s u := rfl

theorem getProfile_insertGoogleTx (s : DBState) (g : GTxRecord) (u : String) :
    getProfile (insertGoogleTx s g) u = getProfile s u := rfl

theorem getProfile_applyUpsertAppleTx (s : DBState) (r : TxRecord) (u : String) :
    getProfile (applyUpsertAppleTx s r) u = getProfile s u := rfl

theorem getProfile_markAppleTxRefunded (s : DBState) (tid : String) (now : Nat)
    (u : String) : getProfile (markAppleTxRefunded s tid now) u = getProfile s u := rfl

theorem find?_profiles_map (uid : String) (f : Profile → Profile) :
    ∀ (l : List (String × Profile)),
      ((l.map (fun q => if q.1 = uid then (q.1, f q.2) else q)).find?
          (fun q => q.1 = uid)).map Prod.snd =
        ((l.find? (fun q => q.1 = uid)).map Prod.snd).map f
  | [] => rfl
  | a :: l => by
    by_cases h : a.1 = uid
    · simp [List.find?, h]
    · rw [List.map_cons, if_neg h, List.find?_cons_of_neg _ (by simp [h]),
        List.find?_cons_of_neg _ (by simp [h])]
      exact find?_profiles_map uid f l

theorem mem_upsertAppleTx (l : List TxRecord) (r x : TxRecord)
    (hx : x ∈ upsertAppleTx l r) :
    x = { r with created_at := x.created_at } ∨
      (x ∈ l ∧ x.transaction_id ≠ r.transaction_id) := by
  unfold upsertAppleTx at hx
  split at hx
  case isTrue hany =>
    rw [List.mem_map] at hx
    obtain ⟨y, hy, hxy⟩ := hx
    by_cases h : y.transaction_id = r.transaction_id
    · left
      rw [if_pos h] at hxy
      subst hxy
      rfl
    · right
      rw [if_neg h] at hxy
      subst hxy
      exact ⟨hy, h⟩
  case isFalse hany =>
    rcases List.mem_cons.mp hx with h | h
    · left
      subst h
      rfl
    · right
      refine ⟨h, fun hc => hany ?_⟩
      rw [List.any_eq_true]
      exact ⟨x, h, by simp [hc]⟩

theorem getProfile_updateProfile (s : DBState) (uid : String) (f : Profile → Profile) :
    getProfile (updateProfile s uid f) uid = (getProfile s uid).map f := by
  simp only [getProfile, updateProfile]
  exact find?_profiles_map uid f s.profiles

attribute [simp] findAppleTx_insertAppleTx findAppleTx_insertGoogleTx
  findAppleTx_updateProfile findGoogleTx_insertGoogleTx findGoogleTx_insertAppleTx
  findGoogleTx_updateProfile getProfile_insertAppleTx getProfile_insertGoogleTx
  getProfile_applyUpsertAppleTx getProfile_markAppleTxRefunded getProfile_updateProfile

/-! Claim theorems. -/

/-- C1: submitting the same purchase (transactionId/orderId, productId, proof)
to a credits processing endpoint a second time after a successful first call
credits nothing further: the second call short-circuits on the stored valid
ledger row, leaves the store unchanged, and returns success with the same
newTotal the first call returned (apple and google endpoints). -/
theorem credits_replay_idempotent :
    (∀ (u : String) (rq : CreditsRequest) (pr sb pr2 sb2 : AppleReceiptResponse)
        (t t2 a n : Nat) (s s' : DBState),
      appleProcessCredits u rq pr sb t s = (.ok a n, s') →
      appleProcessCredits u rq pr2 sb2 t2 s' = (.alreadyProcessed n, s')) ∧
    (∀ (u : String) (rq : GoogleCreditsRequest) (g g2 : GoogleProductResponse)
        (t t2 a n : Nat) (s s' : DBState),
      googleProcessCredits u rq g t s = (.ok a n, s') →
      googleProcessCredits u rq g2 t2 s' = (.alreadyProcessed n, s')) := by
  constructor
  · intro u rq pr sb pr2 sb2 t t2 a n s s' h
    by_cases h1 : rq.receiptData = ""
    · simp [appleProcessCredits, h1] at h
    by_cases h2 : rq.productId = ""
    · simp [appleProcessCredits, h1, h2] at h
    by_cases h3 : rq.transactionId = ""
    · simp [appleProcessCredits, h1, h2, h3] at h
    cases hfind : findAppleTx s rq.transactionId with
    | some existing =>
      by_cases hv : existing.validation_status = VStatus.valid
      · simp [appleProcessCredits, h1, h2, h3, hfind, hv] at h
      · simp [appleProcessCredits, h1, h2, h3, hfind, hv] at h
    | none =>
      by_cases hst : (validateWithApple pr sb).status = 0
      case neg => simp [appleProcessCredits, h1, h2, h3, hfind, hst] at h
      case pos =>
      cases hp : appleCreditsMatch (validateWithApple pr sb) rq.transactionId with
      | none => simp [appleProcessCredits, h1, h2, h3, hfind, hst, hp] at h
      | some purchase =>
        by_cases hpid : purchase.product_id = rq.productId
        case neg => simp [appleProcessCredits, h1, h2, h3, hfind, hst, hp, hpid] at h
        case pos =>
        cases hca : creditAmountOf rq.productId with
        | none => simp [appleProcessCredits, h1, h2, h3, hfind, hst, hp, hpid, hca] at h
        | some amt =>
          cases hprof : getProfile s u with
          | none =>
            simp [appleProcessCredits, h1, h2, h3, hfind, hst, hp, hpid, hca, hprof] at h
          | some profile =>
            simp [appleProcessCredits, h1, h2, h3, hfind, hst, hp, hpid, hca, hprof,
              Prod.ext_iff] at h
            obtain ⟨⟨ha, hn⟩, hstate⟩ := h
            subst hstate
            subst hn
            simp [appleProcessCredits, h1, h2, h3, hprof]
  · intro u rq g g2 t t2 a n s s' h
    by_cases h1 : rq.purchaseToken = ""
    · simp [googleProcessCredits, h1] at h
    by_cases h2 : rq.productId = ""
    · simp [googleProcessCredits, h1, h2] at h
    by_cases h3 : rq.orderId = ""
    · simp [googleProcessCredits, h1, h2, h3] at h
    cases hfind : findGoogleTx s rq.orderId with
    | some existing =>
      by_cases hv : existing.validation_status = VStatus.valid
      · simp [googleProcessCredits, h1, h2, h3, hfind, hv] at h
      · simp [googleProcessCredits, h1, h2, h3, hfind, hv] at h
    | none =>
      by_cases hst : g.purchaseState = 0
      case neg => simp [googleProcessCredits, h1, h2, h3, hfind, hst] at h
      case pos =>
      cases hca : creditAmountOf rq.productId with
      | none => simp [googleProcessCredits, h1, h2, h3, hfind, hst, hca] at h
      | some amt =>
        cases hprof : getProfile s u with
        | none => simp [googleProcessCredits, h1, h2, h3, hfind, hst, hca, hprof] at h
        | some profile =>
          simp [googleProcessCredits, h1, h2, h3, hfind, hst, hca, hprof,
            Prod.ext_iff] at h
          obtain ⟨⟨ha, hn⟩, hstate⟩ := h
          subst hstate
          subst hn
          simp [googleProcessCredits, h1, h2, h3, hprof]

/-- Witness for credits_replay_idempotent: u1 buys a single credit (3 → 4),
resubmitting the same transaction returns newTotal 4 again without a write. -/
theorem credits_replay_idempotent_witness :
    appleProcessCredits "u1" exRq exPr exSb 10
        (appleProcessCredits "u1" exRq exPr exSb 5 exS0).2
      = (.alreadyProcessed 4, (appleProcessCredits "u1" exRq exPr exSb 5 exS0).2) ∧
    googleProcessCredits "u1" exGRq exG 10
        (googleProcessCredits "u1" exGRq exG 5 exS0).2
      = (.alreadyProcessed 4, (googleProcessCredits "u1" exGRq exG 5 exS0).2) :=
  ⟨credits_replay_idempotent.1 "u1" exRq exPr exSb exPr exSb 5 10 1 4 exS0 _ (by decide),
   credits_replay_idempotent.2 "u1" exGRq exG exG 5 10 1 4 exS0 _ (by decide)⟩

/-- C10: the idempotent short-circuit is keyed only by the platform transaction
id: whenever a valid ledger row exists for the submitted id, the endpoint
answers success with the authenticated caller's own current room_credits
(0 when the caller has no profile row) and performs no write — with no
hypothesis relating the stored row's user_id to the caller. -/
theorem replay_keyed_by_transaction_only :
    (∀ (u : String) (rq : CreditsRequest) (pr sb : AppleReceiptResponse)
        (t : Nat) (s : DBState) (r : TxRecord),
      rq.receiptData ≠ "" → rq.productId ≠ "" → rq.transactionId ≠ "" →
      findAppleTx s rq.transactionId = some r → r.validation_status = .valid →
      appleProcessCredits u rq pr sb t s =
        (.alreadyProcessed (((getProfile s u).map Profile.room_credits).getD 0), s)) ∧
    (∀ (u : String) (rq : GoogleCreditsRequest) (g : GoogleProductResponse)
        (t : Nat) (s : DBState) (r : GTxRecord),
      rq.purchaseToken ≠ "" → rq.productId ≠ "" → rq.orderId ≠ "" →
      findGoogleTx s rq.orderId = some r → r.validation_status = .valid →
      googleProcessCredits u rq g t s =
        (.alreadyProcessed (((getProfile s u).map Profile.room_credits).getD 0), s)) := by
  constructor
  · intro u rq pr sb t s r h1 h2 h3 hfind hv
    simp [appleProcessCredits, h1, h2, h3, hfind, hv]
  · intro u rq g t s r h1 h2 h3 hfind hv
    simp [googleProcessCredits, h1, h2, h3, hfind, hv]

/-- Witness for replay_keyed_by_transaction_only: the stored T1/O1 rows belong
to user "other", yet caller u1 (who has no profile row) gets a success with
newTotal 0 and nothing is written. -/
theorem replay_keyed_by_transaction_only_witness :
    (exForeignRec.user_id ≠ "u1" ∧
      appleProcessCredits "u1" exRq exPr exSb 5 exSForeign =
        (.alreadyProcessed 0, exSForeign)) ∧
    (exForeignGRec.user_id ≠ "u1" ∧
      googleProcessCredits "u1" exGRq exG 5 exSGForeign =
        (.alreadyProcessed 0, exSGForeign)) := by
  refine ⟨⟨by decide, ?_⟩, ⟨by decide, ?_⟩⟩
  · have h := replay_keyed_by_transaction_only.1 "u1" exRq exPr exSb 5 exSForeign
      exForeignRec (by decide) (by decide) (by decide) (by decide) (by decide)
    rw [show (((getProfile exSForeign "u1").map Profile.room_credits).getD 0) = 0
      from by decide] at h
    exact h
  · have h := replay_keyed_by_transaction_only.2 "u1" exGRq exG 5 exSGForeign
      exForeignGRec (by decide) (by decide) (by decide) (by decide) (by decide)
    rw [show (((getProfile exSGForeign "u1").map Profile.room_credits).getD 0) = 0
      from by decide] at h
    exact h

/-- C4: a transaction whose ledger row is marked invalid or refunded is
rejected on every resubmission — by the credits endpoint and by the
subscription endpoint — with the store left unchanged, so the row stays
rejected and entitlement is never applied for it. -/
theorem rejected_resubmission_rejected :
    (∀ (u : String) (rq : CreditsRequest) (pr sb : AppleReceiptResponse)
        (t : Nat) (s : DBState) (r : TxRecord),
      rq.receiptData ≠ "" → rq.productId ≠ "" → rq.transactionId ≠ "" →
      findAppleTx s rq.transactionId = some r →
      (r.validation_status = .invalid ∨ r.validation_status = .refunded) →
      appleProcessCredits u rq pr sb t s = (.err .previouslyRejected, s)) ∧
    (∀ (u : String) (rq : CreditsRequest) (pr sb : AppleReceiptResponse)
        (t : Nat) (s : DBState) (r : TxRecord),
      rq.receiptData ≠ "" → rq.productId ≠ "" → rq.transactionId ≠ "" →
      findAppleTx s rq.transactionId = some r →
      (r.validation_status = .invalid ∨ r.validation_status = .refunded) →
      appleProcessSubscription u rq pr sb t s = (.err .previouslyRejected, s)) := by
  constructor
  · intro u rq pr sb t s r h1 h2 h3 hfind hv
    rcases hv with hv | hv <;> simp [appleProcessCredits, h1, h2, h3, hfind, hv]
  · intro u rq pr sb t s r h1 h2 h3 hfind hv
    rcases hv with hv | hv <;> simp [appleProcessSubscription, h1, h2, h3, hfind, hv]

/-- Witness for rejected_resubmission_rejected: resubmitting T1 (stored as
invalid) errors out against both endpoints and leaves the store as it was. -/
theorem rejected_resubmission_rejected_witness :
    appleProcessCredits "u1" exRq exPr exSb 5 exSInvalid =
      (.err .previouslyRejected, exSInvalid) ∧
    appleProcessSubscription "u1" exRq exPr exSb 5 exSInvalid =
      (.err .previouslyRejected, exSInvalid) :=
  ⟨rejected_resubmission_rejected.1 "u1" exRq exPr exSb 5 exSInvalid exInvalidRec
      (by decide) (by decide) (by decide) (by decide) (Or.inl (by decide)),
   rejected_resubmission_rejected.2 "u1" exRq exPr exSb 5 exSInvalid exInvalidRec
      (by decide) (by decide) (by decide) (by decide) (Or.inl (by decide))⟩

/-- C2 counterexample: product-id mismatch for transaction T1 (claimed
single_credit, verified other_product): the endpoint errors and applies no
entitlement, but the resulting store is the unchanged exS0, which holds no row
for T1 at all — so the transaction is NOT recorded with validation_status
invalid, contrary to the claim. -/
theorem product_mismatch_leaves_ledger_empty :
    appleProcessCredits "u1" exRq exPrMismatch exSb 5 exS0 =
      (.err (.productIdMismatch "single_credit" "other_product"), exS0) ∧
    findAppleTx exS0 "T1" = none := by
  constructor <;> decide

/-- C2 (amended): when the verified receipt's matched entry carries a product
id different from the client claim, both the apple credits endpoint and the
apple subscription validation path reject with a product-id-mismatch error and
leave the store entirely unchanged: no entitlement is applied and no ledger
row (in particular none marked invalid) is written. -/
theorem product_mismatch_rejects_without_write :
    (∀ (u : String) (rq : CreditsRequest) (pr sb : AppleReceiptResponse)
        (t : Nat) (s : DBState) (purchase : PurchaseEntry),
      rq.receiptData ≠ "" → rq.productId ≠ "" → rq.transactionId ≠ "" →
      findAppleTx s rq.transactionId = none →
      (validateWithApple pr sb).status = 0 →
      appleCreditsMatch (validateWithApple pr sb) rq.transactionId = some purchase →
      purchase.product_id ≠ rq.productId →
      appleProcessCredits u rq pr sb t s =
        (.err (.productIdMismatch rq.productId purchase.product_id), s)) ∧
    (∀ (u : String) (rq : CreditsRequest) (pr sb : AppleReceiptResponse)
        (t : Nat) (s : DBState) (purchase : PurchaseEntry),
      (validateWithApple pr sb).status = 0 →
      appleSubMatch (validateWithApple pr sb) rq.transactionId = some purchase →
      purchase.product_id ≠ rq.productId →
      appleSubValidatePath u rq pr sb t s =
        (.err (.productIdMismatch rq.productId purchase.product_id), s)) := by
  constructor
  · intro u rq pr sb t s purchase h1 h2 h3 hfind hst hp hpid
    simp [appleProcessCredits, h1, h2, h3, hfind, hst, hp, hpid]
  · intro u rq pr sb t s purchase hst hp hpid
    simp [appleSubValidatePath, hst, hp, hpid]

/-- Witness for product_mismatch_rejects_without_write at the concrete
mismatching receipt. -/
theorem product_mismatch_rejects_without_write_witness :
    appleProcessCredits "u1" exRq exPrMismatch exSb 5 exS0 =
      (.err (.productIdMismatch exRq.productId "other_product"), exS0) ∧
    appleSubValidatePath "u1" exRq exPrMismatch exSb 5 exS0 =
      (.err (.productIdMismatch exRq.productId "other_product"), exS0) :=
  ⟨product_mismatch_rejects_without_write.1 "u1" exRq exPrMismatch exSb 5 exS0
      { transaction_id := "T1", product_id := "other_product" }
      (by decide) (by decide) (by decide) (by decide) (by decide) (by decide) (by decide),
   product_mismatch_rejects_without_write.2 "u1" exRq exPrMismatch exSb 5 exS0
      { transaction_id := "T1", product_id := "other_product" }
      (by decide) (by decide) (by decide)⟩

/-- C6: credit mapping and totals for a first-time valid consumable purchase:
a product id containing single_credit maps to amount 1, otherwise one
containing credit_pack maps to 5, otherwise the request fails with the store
unchanged; on success the stored room_credits become previous + amount and the
response carries creditsAdded = amount and newTotal = previous + amount
(apple and google endpoints). -/
theorem credit_mapping_and_totals :
    (∀ pid : String, strContains pid "single_credit" = true →
      creditAmountOf pid = some 1) ∧
    (∀ pid : String, strContains pid "single_credit" = false →
      strContains pid "credit_pack" = true → creditAmountOf pid = some 5) ∧
    (∀ pid : String, strContains pid "single_credit" = false →
      strContains pid "credit_pack" = false → creditAmountOf pid = none) ∧
    (∀ (u : String) (rq : CreditsRequest) (pr sb : AppleReceiptResponse)
        (t amt : Nat) (s : DBState) (purchase : PurchaseEntry) (prof : Profile),
      rq.receiptData ≠ "" → rq.productId ≠ "" → rq.transactionId ≠ "" →
      findAppleTx s rq.transactionId = none →
      (validateWithApple pr sb).status = 0 →
      appleCreditsMatch (validateWithApple pr sb) rq.transactionId = some purchase →
      purchase.product_id = rq.productId →
      creditAmountOf rq.productId = some amt →
      getProfile s u = some prof →
      (appleProcessCredits u rq pr sb t s).1 = .ok amt (prof.room_credits + amt) ∧
      getProfile (appleProcessCredits u rq pr sb t s).2 u =
        some { prof with room_credits := prof.room_credits + amt, updated_at := t }) ∧
    (∀ (u : String) (rq : CreditsRequest) (pr sb : AppleReceiptResponse)
        (t : Nat) (s : DBState) (purchase : PurchaseEntry),
      rq.receiptData ≠ "" → rq.productId ≠ "" → rq.transactionId ≠ "" →
      findAppleTx s rq.transactionId = none →
      (validateWithApple pr sb).status = 0 →
      appleCreditsMatch (validateWithApple pr sb) rq.transactionId = some purchase →
      purchase.product_id = rq.productId →
      creditAmountOf rq.productId = none →
      appleProcessCredits u rq pr sb t s =
        (.err (.unknownCreditProduct rq.productId), s)) ∧
    (∀ (u : String) (rq : GoogleCreditsRequest) (g : GoogleProductResponse)
        (t amt : Nat) (s : DBState) (prof : Profile),
      rq.purchaseToken ≠ "" → rq.productId ≠ "" → rq.orderId ≠ "" →
      findGoogleTx s rq.orderId = none →
      g.purchaseState = 0 →
      creditAmountOf rq.productId = some amt →
      getProfile s u = some prof →
      (googleProcessCredits u rq g t s).1 = .ok amt (prof.room_credits + amt) ∧
      getProfile (googleProcessCredits u rq g t s).2 u =
        some { prof with room_credits := prof.room_credits + amt, updated_at := t }) ∧
    (∀ (u : String) (rq : GoogleCreditsRequest) (g : GoogleProductResponse)
        (t : Nat) (s : DBState),
      rq.purchaseToken ≠ "" → rq.productId ≠ "" → rq.orderId ≠ "" →
      findGoogleTx s rq.orderId = none →
      g.purchaseState = 0 →
      creditAmountOf rq.productId = none →
      googleProcessCredits u rq g t s =
        (.err (.unknownCreditProduct rq.productId), s)) := by
  refine ⟨?_, ?_, ?_, ?_, ?_, ?_, ?_⟩
  · intro pid h
    simp [creditAmountOf, h]
  · intro pid h h'
    simp [creditAmountOf, h, h']
  · intro pid h h'
    simp [creditAmountOf, h, h']
  · intro u rq pr sb t amt s purchase prof h1 h2 h3 hfind hst hp hpid hca hprof
    simp [appleProcessCredits, h1, h2, h3, hfind, hst, hp, hpid, hca, hprof]
  · intro u rq pr sb t s purchase h1 h2 h3 hfind hst hp hpid hca
    simp [appleProcessCredits, h1, h2, h3, hfind, hst, hp, hpid, hca]
  · intro u rq g t amt s prof h1 h2 h3 hfind hst hca hprof
    simp [googleProcessCredits, h1, h2, h3, hfind, hst, hca, hprof]
  · intro u rq g t s h1 h2 h3 hfind hst hca
    simp [googleProcessCredits, h1, h2, h3, hfind, hst, hca]

/-- Witness for credit_mapping_and_totals: the two mapping cases, the
rejection of an unknown product, and the 3 → 4 purchase on both endpoints. -/
theorem credit_mapping_and_totals_witness :
    creditAmountOf "single_credit" = some 1 ∧
    creditAmountOf "credit_pack" = some 5 ∧
    creditAmountOf "gold_coins" = none ∧
    ((appleProcessCredits "u1" exRq exPr exSb 5 exS0).1 = .ok 1 (3 + 1) ∧
      getProfile (appleProcessCredits "u1" exRq exPr exSb 5 exS0).2 "u1" =
        some { exProfile with room_credits := 3 + 1, updated_at := 5 }) ∧
    ((googleProcessCredits "u1" exGRq exG 5 exS0).1 = .ok 1 (3 + 1) ∧
      getProfile (googleProcessCredits "u1" exGRq exG 5 exS0).2 "u1" =
        some { exProfile with room_credits := 3 + 1, updated_at := 5 }) := by
  refine ⟨credit_mapping_and_totals.1 "single_credit" (by decide),
    credit_mapping_and_totals.2.1 "credit_pack" (by decide) (by decide),
    credit_mapping_and_totals.2.2.1 "gold_coins" (by decide) (by decide), ?_, ?_⟩
  · have h := credit_mapping_and_totals.2.2.2.1 "u1" exRq exPr exSb 5 1 exS0 exEntry
      exProfile (by decide) (by decide) (by decide) (by decide) (by decide) (by decide)
      (by decide) (by decide) (by decide)
    exact h
  · have h := credit_mapping_and_totals.2.2.2.2.2.1 "u1" exGRq exG 5 1 exS0
      exProfile (by decide) (by decide) (by decide) (by decide) (by decide) (by decide)
      (by decide)
    exact h

/-- C7: apple verification goes to production first: a production status other
than 21007 is returned as-is (no sandbox call); status 21007 triggers exactly
one sandbox retry whose result is returned; and when the resulting status is
non-zero the credits endpoint records the attempt as an invalid row, returns
the validation-failure error and applies no entitlement (profiles unchanged). -/
theorem apple_verification_production_first_sandbox_retry :
    (∀ pr sb : AppleReceiptResponse, pr.status ≠ 21007 → validateWithApple pr sb = pr) ∧
    (∀ pr sb : AppleReceiptResponse, pr.status = 21007 → validateWithApple pr sb = sb) ∧
    (∀ (u : String) (rq : CreditsRequest) (pr sb : AppleReceiptResponse)
        (t : Nat) (s : DBState),
      rq.receiptData ≠ "" → rq.productId ≠ "" → rq.transactionId ≠ "" →
      findAppleTx s rq.transactionId = none →
      (validateWithApple pr sb).status ≠ 0 →
      appleProcessCredits u rq pr sb t s =
        (.err (.appleValidationFailed (validateWithApple pr sb).status),
         insertAppleTx s
           { user_id := u
             transaction_id := rq.transactionId
             product_id := rq.productId
             product_type := "consumable"
             purchase_date := t
             receipt_data := some rq.receiptData
             environment := (validateWithApple pr sb).environment
             validation_status := .invalid
             processed := false
             created_at := t
             updated_at := t }) ∧
      (appleProcessCredits u rq pr sb t s).2.profiles = s.profiles) := by
  refine ⟨?_, ?_, ?_⟩
  · intro pr sb h
    simp [validateWithApple, h]
  · intro pr sb h
    simp [validateWithApple, h]
  · intro u rq pr sb t s h1 h2 h3 hfind hst
    have heq : appleProcessCredits u rq pr sb t s =
        (.err (.appleValidationFailed (validateWithApple pr sb).status),
         insertAppleTx s
           { user_id := u
             transaction_id := rq.transactionId
             product_id := rq.productId
             product_type := "consumable"
             purchase_date := t
             receipt_data := some rq.receiptData
             environment := (validateWithApple pr sb).environment
             validation_status := .invalid
             processed := false
             created_at := t
             updated_at := t }) := by
      simp [appleProcessCredits, h1, h2, h3, hfind, hst]
    exact ⟨heq, by rw [heq]; rfl⟩

/-- Witness for apple_verification_production_first_sandbox_retry: a 21002
production response is final, a 21007 one is retried against sandbox, and the
21002 failure writes exactly one invalid row without touching profiles. -/
theorem apple_verification_production_first_sandbox_retry_witness :
    validateWithApple exPrFail exSb = exPrFail ∧
    validateWithApple exPr21007 exSb = exSb ∧
    (appleProcessCredits "u1" exRq exPrFail exSb 5 exS0 =
      (.err (.appleValidationFailed (validateWithApple exPrFail exSb).status),
       insertAppleTx exS0
         { user_id := "u1"
           transaction_id := exRq.transactionId
           product_id := exRq.productId
           product_type := "consumable"
           purchase_date := 5
           receipt_data := some exRq.receiptData
           environment := (validateWithApple exPrFail exSb).environment
           validation_status := .invalid
           processed := false
           created_at := 5
           updated_at := 5 }) ∧
     (appleProcessCredits "u1" exRq exPrFail exSb 5 exS0).2.profiles = exS0.profiles) :=
  ⟨apple_verification_production_first_sandbox_retry.1 exPrFail exSb (by decide),
   apple_verification_production_first_sandbox_retry.2.1 exPr21007 exSb (by decide),
   apple_verification_production_first_sandbox_retry.2.2 "u1" exRq exPrFail exSb 5 exS0
      (by decide) (by decide) (by decide) (by decide) (by decide)⟩

/-- C3: for a successful subscription purchase where the platform reports
expires_date_ms = T, the stored subscription_expires_at equals T exactly, for
every server clock value now (so the expiry is never a locally computed
now-plus-period value), and the response carries expiresAt = T. -/
theorem subscription_expiry_platform_authoritative :
    ∀ (u : String) (rq : CreditsRequest) (pr sb : AppleReceiptResponse)
        (t T : Nat) (s : DBState) (purchase : PurchaseEntry) (prof : Profile),
      rq.receiptData ≠ "" → rq.productId ≠ "" → rq.transactionId ≠ "" →
      findAppleTx s rq.transactionId = none →
      (validateWithApple pr sb).status = 0 →
      appleSubMatch (validateWithApple pr sb) rq.transactionId = some purchase →
      purchase.product_id = rq.productId →
      purchase.expires_date_ms = some T →
      getProfile s u = some prof →
      (appleProcessSubscription u rq pr sb t s).1 =
        .ok (if strContains rq.productId "monthly" then "monthly" else "annual") T ∧
      getProfile (appleProcessSubscription u rq pr sb t s).2 u =
        some { prof with
          subscription_type :=
            some (if strContains rq.productId "monthly" then "monthly" else "annual")
          subscription_status := some "active"
          subscription_expires_at := some T
          updated_at := t } := by
  intro u rq pr sb t T s purchase prof h1 h2 h3 hfind hst hp hpid hexp hprof
  simp [appleProcessSubscription, appleSubValidatePath, h1, h2, h3, hfind, hst, hp,
    hpid, hexp, hprof]

/-- Witness for subscription_expiry_platform_authoritative: monthly purchase
with platform expiry 2222 processed at server time 5 stores exactly 2222. -/
theorem subscription_expiry_platform_authoritative_witness :
    (appleProcessSubscription "u1" exSubRq exPrSub exSb 5 exS0).1 =
      .ok (if strContains exSubRq.productId "monthly" then "monthly" else "annual") 2222 ∧
    getProfile (appleProcessSubscription "u1" exSubRq exPrSub exSb 5 exS0).2 "u1" =
      some { exProfile with
        subscription_type :=
          some (if strContains exSubRq.productId "monthly" then "monthly" else "annual")
        subscription_status := some "active"
        subscription_expires_at := some 2222
        updated_at := 5 } :=
  subscription_expiry_platform_authoritative "u1" exSubRq exPrSub exSb 5 2222 exS0
    exSubEntry exProfile (by decide) (by decide) (by decide) (by decide) (by decide)
    (by decide) (by decide) (by decide) (by decide)

/-- C5: on the subscription endpoint, an existing valid ledger row whose owner
profile does not currently show an active subscription (zombie record) does
not short-circuit: the request falls through to the full re-validation path,
whose fresh platform expiry T is what gets stored — every ledger row left for
that transaction id carries subscription_expires_at = T (the upsert is keyed
on transaction_id), regardless of the stale expiry stored in the old row.
When the profile does show an active subscription with an expiry, the endpoint
short-circuits with the profile data and no state change, for every
verification response. -/
theorem zombie_record_revalidated_not_reused :
    (∀ (u : String) (rq : CreditsRequest) (pr sb : AppleReceiptResponse)
        (t : Nat) (s : DBState) (r : TxRecord),
      rq.receiptData ≠ "" → rq.productId ≠ "" → rq.transactionId ≠ "" →
      findAppleTx s rq.transactionId = some r → r.validation_status = .valid →
      profileActive (getProfile s u) = false →
      appleProcessSubscription u rq pr sb t s = appleSubValidatePath u rq pr sb t s) ∧
    (∀ (u : String) (rq : CreditsRequest) (pr sb : AppleReceiptResponse)
        (t T : Nat) (s : DBState) (r : TxRecord) (purchase : PurchaseEntry),
      rq.receiptData ≠ "" → rq.productId ≠ "" → rq.transactionId ≠ "" →
      findAppleTx s rq.transactionId = some r → r.validation_status = .valid →
      profileActive (getProfile s u) = false →
      (validateWithApple pr sb).status = 0 →
      appleSubMatch (validateWithApple pr sb) rq.transactionId = some purchase →
      purchase.product_id = rq.productId →
      purchase.expires_date_ms = some T →
      (appleProcessSubscription u rq pr sb t s).1 =
        .ok (if strContains rq.productId "monthly" then "monthly" else "annual") T ∧
      (∀ x ∈ (appleProcessSubscription u rq pr sb t s).2.appleTx,
        x.transaction_id = rq.transactionId →
        x.subscription_expires_at = some T ∧ x.validation_status = .valid)) ∧
    (∀ (u : String) (rq : CreditsRequest) (pr sb : AppleReceiptResponse)
        (t : Nat) (s : DBState) (r : TxRecord) (prof : Profile),
      rq.receiptData ≠ "" → rq.productId ≠ "" → rq.transactionId ≠ "" →
      findAppleTx s rq.transactionId = some r → r.validation_status = .valid →
      getProfile s u = some prof →
      prof.subscription_status = some "active" →
      prof.subscription_expires_at.isSome = true →
      appleProcessSubscription u rq pr sb t s =
        (.alreadyActive prof.subscription_type prof.subscription_status
          prof.subscription_expires_at, s)) := by
  refine ⟨?_, ?_, ?_⟩
  · intro u rq pr sb t s r h1 h2 h3 hfind hv hact
    simp [appleProcessSubscription, h1, h2, h3, hfind, hv, hact]
  · intro u rq pr sb t T s r purchase h1 h2 h3 hfind hv hact hst hp hpid hexp
    have hred : appleProcessSubscription u rq pr sb t s =
        appleSubValidatePath u rq pr sb t s := by
      simp [appleProcessSubscription, h1, h2, h3, hfind, hv, hact]
    rw [hred]
    have heq : appleSubValidatePath u rq pr sb t s =
        (.ok (if strContains rq.productId "monthly" then "monthly" else "annual") T,
         applyUpsertAppleTx
           (updateProfile s u (fun p =>
             { p with
               subscription_type :=
                 some (if strContains rq.productId "monthly" then "monthly" else "annual")
               subscription_status := some "active"
               subscription_expires_at := some T
               updated_at := t }))
           { user_id := u
             transaction_id := rq.transactionId
             original_transaction_id :=
               some (purchase.original_transaction_id.getD rq.transactionId)
             product_id := rq.productId
             product_type := "subscription"
             purchase_date := purchase.purchase_date_ms.getD t
             subscription_expires_at := some T
             subscription_auto_renew_status :=
               some ((validateWithApple pr sb).pending_renewal_auto_renew == some "1")
             receipt_data := some rq.receiptData
             environment := some ((validateWithApple pr sb).environment.getD "Production")
             validation_status := .valid
             processed := true
             processed_at := some t
             created_at := t
             updated_at := t }) := by
      simp [appleSubValidatePath, hst, hp, hpid, hexp]
    rw [heq]
    refine ⟨rfl, ?_⟩
    intro x hx htid
    simp only [applyUpsertAppleTx] at hx
    rcases mem_upsertAppleTx _ _ _ hx with hx1 | ⟨_, hx2⟩
    · rw [hx1]
      exact ⟨rfl, rfl⟩
    · exact absurd htid hx2
  · intro u rq pr sb t s r prof h1 h2 h3 hfind hv hprof hs he
    have hact : profileActive (some prof) = true := by
      simp [profileActive, hs, he]
    simp [appleProcessSubscription, h1, h2, h3, hfind, hv, hprof, hact]

/-- Witness for zombie_record_revalidated_not_reused: the stale S1 row stores
expiry 111, the fresh verification reports 2222; processing the zombie store
re-validates and leaves the S1 row holding 2222, while the active store
short-circuits unchanged. -/
theorem zombie_record_revalidated_not_reused_witness :
    appleProcessSubscription "u1" exSubRq exPrSub exSb 5 exSZombie =
      appleSubValidatePath "u1" exSubRq exPrSub exSb 5 exSZombie ∧
    (appleProcessSubscription "u1" exSubRq exPrSub exSb 5 exSZombie).1 =
      .ok (if strContains exSubRq.productId "monthly" then "monthly" else "annual") 2222 ∧
    exZombieRec.subscription_expires_at = some 111 ∧
    Option.map TxRecord.subscription_expires_at
        (findAppleTx (appleProcessSubscription "u1" exSubRq exPrSub exSb 5 exSZombie).2 "S1")
      = some (some 2222) ∧
    appleProcessSubscription "u1" exSubRq exPrSub exSb 5 exSActive =
      (.alreadyActive (some "monthly") (some "active") (some 333), exSActive) := by
  refine ⟨zombie_record_revalidated_not_reused.1 "u1" exSubRq exPrSub exSb 5 exSZombie
      exZombieRec (by decide) (by decide) (by decide) (by decide) (by decide) (by decide),
    (zombie_record_revalidated_not_reused.2.1 "u1" exSubRq exPrSub exSb 5 2222 exSZombie
      exZombieRec exSubEntry (by decide) (by decide) (by decide) (by decide) (by decide)
      (by decide) (by decide) (by decide) (by decide) (by decide)).1,
    by decide, by decide, ?_⟩
  have h := zombie_record_revalidated_not_reused.2.2 "u1" exSubRq exPrSub exSb 5
    exSActive exZombieRec exActiveProfile (by decide) (by decide) (by decide)
    (by decide) (by decide) (by decide) (by decide) (by decide)
  simpa using h

/-- C8: the webhook acknowledges with HTTP 200 { received: true } and makes no
state change whenever no stored transaction matches the notification's
original_transaction_id, and whenever the notification_type is not one of the
handled types (regardless of attribution). -/
theorem webhook_unknown_or_unmatched_is_noop :
    (∀ (p : NotifPayload) (t : Nat) (s : DBState) (d : NotifData),
      notifData p = some d →
      findLatestByOriginal s.appleTx d.original_transaction_id = none →
      appleServerNotifications p t s = (.received, s)) ∧
    (∀ (p : NotifPayload) (t : Nat) (s : DBState),
      p.notification_type ≠ "DID_RENEW" →
      p.notification_type ≠ "RENEWAL" →
      p.notification_type ≠ "DID_CHANGE_RENEWAL_STATUS" →
      p.notification_type ≠ "CANCEL" →
      p.notification_type ≠ "DID_FAIL_TO_RENEW" →
      p.notification_type ≠ "REFUND" →
      p.notification_type ≠ "REVOKE" →
      p.notification_type ≠ "DID_RECOVER" →
      appleServerNotifications p t s = (.received, s)) := by
  constructor
  · intro p t s d hd hfind
    simp [appleServerNotifications, hd, hfind]
  · intro p t s h1 h2 h3 h4 h5 h6 h7 h8
    cases hd : notifData p with
    | none => simp [appleServerNotifications, hd]
    | some d =>
      cases hfind : findLatestByOriginal s.appleTx d.original_transaction_id with
      | none => simp [appleServerNotifications, hd, hfind]
      | some txn =>
        simp [appleServerNotifications, hd, hfind, h1, h2, h3, h4, h5, h6, h7, h8]

/-- Witness for webhook_unknown_or_unmatched_is_noop: a renewal for an unknown
original id on the empty store, and an unknown type on a store that would
match, are both acknowledged unchanged. -/
theorem webhook_unknown_or_unmatched_is_noop_witness :
    appleServerNotifications exRenewPayload 7 exS0 = (.received, exS0) ∧
    appleServerNotifications exUnknownPayload 7 exSOrig = (.received, exSOrig) :=
  ⟨webhook_unknown_or_unmatched_is_noop.1 exRenewPayload 7 exS0
      { original_transaction_id := "O1", product_id := "premium_monthly",
        expires_date_ms := some 2000, transaction_id := "T9",
        purchase_date_ms := some 1000 }
      (by decide) (by decide),
   webhook_unknown_or_unmatched_is_noop.2 exUnknownPayload 7 exSOrig
      (by decide) (by decide) (by decide) (by decide) (by decide) (by decide)
      (by decide) (by decide)⟩

/-- C9 counterexample: the DID_RENEW payload reports purchase_date_ms = 1000,
yet the ledger row the webhook inserts for renewal transaction T9 (processed
at server time 5555) stores purchase_date = 5555, the processing server's
clock, not the platform-reported purchase timestamp. -/
theorem did_renew_row_stores_server_clock :
    Option.map TxRecord.purchase_date
        (findAppleTx (appleServerNotifications exRenewPayload 5555 exSOrig).2 "T9")
      = some 5555 ∧
    Option.map NotifData.purchase_date_ms (notifData exRenewPayload) = some (some 1000) ∧
    Option.map TxRecord.purchase_date
        (findAppleTx (appleServerNotifications exRenewPayload 5555 exSOrig).2 "T9")
      ≠ some 1000 := by
  refine ⟨by decide, by decide, by decide⟩

/-- C9 (amended): the valid-path insert of the apple credits endpoint stores
the platform-reported purchase_date_ms as purchase_date whenever the matched
receipt entry carries one; the row inserted by the webhook for a DID_RENEW
notification instead stores the processing server's clock as purchase_date,
whatever purchase timestamp the platform reported. -/
theorem purchase_date_platform_on_endpoint_local_on_webhook :
    (∀ (u : String) (rq : CreditsRequest) (pr sb : AppleReceiptResponse)
        (t m amt : Nat) (s : DBState) (purchase : PurchaseEntry) (prof : Profile),
      rq.receiptData ≠ "" → rq.productId ≠ "" → rq.transactionId ≠ "" →
      findAppleTx s rq.transactionId = none →
      (validateWithApple pr sb).status = 0 →
      appleCreditsMatch (validateWithApple pr sb) rq.transactionId = some purchase →
      purchase.product_id = rq.productId →
      creditAmountOf rq.productId = some amt →
      getProfile s u = some prof →
      purchase.purchase_date_ms = some m →
      Option.map TxRecord.purchase_date
          (findAppleTx (appleProcessCredits u rq pr sb t s).2 rq.transactionId)
        = some m) ∧
    (∀ (p : NotifPayload) (t e : Nat) (s : DBState) (d : NotifData) (txn : TxRecord),
      notifData p = some d →
      findLatestByOriginal s.appleTx d.original_transaction_id = some txn →
      p.notification_type = "DID_RENEW" →
      d.expires_date_ms = some e →
      Option.map TxRecord.purchase_date
          (findAppleTx (appleServerNotifications p t s).2 d.transaction_id)
        = some t) := by
  constructor
  · intro u rq pr sb t m amt s purchase prof h1 h2 h3 hfind hst hp hpid hca hprof hm
    simp [appleProcessCredits, h1, h2, h3, hfind, hst, hp, hpid, hca, hprof, hm]
  · intro p t e s d txn hd hfind htype hexp
    simp [appleServerNotifications, hd, hfind, htype, hexp]

/-- Witness for purchase_date_platform_on_endpoint_local_on_webhook: the
credits purchase with entry timestamp 100 stores 100; the renewal processed at
5555 stores 5555. -/
theorem purchase_date_sources_witness :
    Option.map TxRecord.purchase_date
        (findAppleTx (appleProcessCredits "u1" exRq exPr exSb 5 exS0).2 "T1")
      = some 100 ∧
    Option.map TxRecord.purchase_date
        (findAppleTx (appleServerNotifications exRenewPayload 5555 exSOrig).2 "T9")
      = some 5555 :=
  ⟨purchase_date_platform_on_endpoint_local_on_webhook.1 "u1" exRq exPr exSb 5 100 1
      exS0 exEntry exProfile (by decide) (by decide) (by decide) (by decide) (by decide)
      (by decide) (by decide) (by decide) (by decide) (by decide),
   purchase_date_platform_on_endpoint_local_on_webhook.2 exRenewPayload 5555 2000
      exSOrig
      { original_transaction_id := "O1", product_id := "premium_monthly",
        expires_date_ms := some 2000, transaction_id := "T9",
        purchase_date_ms := some 1000 }
      exOrigRec (by decide) (by decide) (by decide) (by decide)⟩

end TossOrTaste
